import Mathlib

/-!
Verification of the Facebook-group lead-scraper pipeline
(`src/backend/fb_scraper.py`) against its natural-language specification.

The Python source is shallowly embedded: pure computations become Lean
functions, the browser/page is an explicit environment (oracles giving the
outcome of each navigation, extraction pass and scroll), and the driver
loops become explicit recursion over that environment.  Machine effects
that no claim touches (logging, debug screenshots, sleeps, garbage-collection
hints) are dropped; everything that decides a claim is carried over
faithfully from the source.
-/

namespace FbScraper

/-! ### Records

`LeadRecord` rows are Python dicts produced by `scrape_single_profile`
(keys `name, url, phone, website, has_website, about, work`), with
`source_group` optionally attached by the driver and `prospect_quality`
attached by `save_to_csv`.  We model the dict as a structure whose
optional keys are `Option`-valued. -/

structure LeadRec where
  name : String
  url : String
  phone : String
  website : String
  has_website : String
  about : String
  work : String
  source_group : Option String := none
deriving DecidableEq, Repr

/-- `prospect_quality` values attached by `save_to_csv`
(fb_scraper.py lines 1078-1088). -/
inductive Quality where
  | HOT
  | WARM
  | COLD
  | LOW
deriving DecidableEq, Repr

/-- Numeric rank of a quality tier: HOT above WARM above COLD above LOW.
Used only in theorem statements about export ordering. -/
def qRank : Quality → Nat
  | .HOT => 3
  | .WARM => 2
  | .COLD => 1
  | .LOW => 0

/-! ### `save_to_csv` (fb_scraper.py lines 1064-1106) -/

/-- `prospect_score` (lines 1070-1073): the two-key sort tuple
`(has_phone + no_website, has_phone)` where Python truthiness of a string
field means the string is non-empty. -/
def prospect_score (item : LeadRec) : Nat × Nat :=
  let has_phone : Nat := if item.phone ≠ "" then 1 else 0
  let no_website : Nat := if item.website = "" then 1 else 0
  (has_phone + no_website, has_phone)

/-- Lexicographic `p ≥ q` on the two-key sort tuples; `sorted(data, key=
prospect_score, reverse=True)` places `a` before `b` exactly when
`tupleGe (prospect_score a) (prospect_score b)` (equal keys keep input
order, which `≥` also allows). -/
def tupleGe (p q : Nat × Nat) : Prop :=
  q.1 < p.1 ∨ (q.1 = p.1 ∧ q.2 ≤ p.2)

instance (p q : Nat × Nat) : Decidable (tupleGe p q) := by
  unfold tupleGe; infer_instance

/-- Boolean form of the descending comparison used for the stable sort. -/
def scoreGe (a b : LeadRec) : Bool :=
  decide (tupleGe (prospect_score a) (prospect_score b))

/-- `sorted(data, key=prospect_score, reverse=True)` (line 1075): a stable
sort, descending on the score tuple.  `List.mergeSort` is stable and keeps
`a` before `b` whenever `scoreGe a b`, matching CPython's stable descending
sort. -/
def sorted_data (data : List LeadRec) : List LeadRec :=
  data.mergeSort scoreGe

/-- The quality tier attached to each item of the sorted data
(lines 1078-1088): the exact if/elif chain of the source. -/
def prospect_quality (item : LeadRec) : Quality :=
  let has_phone := item.phone ≠ ""
  let has_website := item.website ≠ ""
  if has_phone ∧ ¬ has_website then .HOT
  else if has_phone then .WARM
  else if ¬ has_website then .COLD
  else .LOW

/-- One written CSV row: the fixed column schema
`prospect_quality, name, phone, website, has_website, about, work, url`
(line 1090); `extrasaction='ignore'` drops any other key
(e.g. `source_group`). -/
structure CsvRow where
  prospect_quality : Quality
  name : String
  phone : String
  website : String
  has_website : String
  about : String
  work : String
  url : String
deriving DecidableEq, Repr

/-- Projection of a record (with its attached quality) onto the written
columns. -/
def rowOf (item : LeadRec) : CsvRow :=
  { prospect_quality := prospect_quality item
    name := item.name
    phone := item.phone
    website := item.website
    has_website := item.has_website
    about := item.about
    work := item.work
    url := item.url }

/-- The sequence of rows `writer.writerows(sorted_data)` emits
(lines 1092-1095). -/
def csvRows (data : List LeadRec) : List CsvRow :=
  (sorted_data data).map rowOf

/-- The filesystem, as an association list from path to written row
sequence; the most recent write of a path stands first, and `List.lookup`
reads it back. -/
abbrev Fs := List (String × List CsvRow)

/-- `save_to_csv(data, filepath)`: the `if not data: return` guard
(lines 1066-1067) leaves the filesystem untouched; otherwise
`open(filepath, 'w')` truncates/creates the file and the sorted, annotated
rows are written. -/
def save_to_csv (data : List LeadRec) (filepath : String) (fs : Fs) : Fs :=
  if data = [] then fs
  else (filepath, csvRows data) :: fs

/-! ### Facts about the score and quality functions -/

lemma tupleGe_trans {p q r : Nat × Nat} (h₁ : tupleGe p q) (h₂ : tupleGe q r) :
    tupleGe p r := by
  unfold tupleGe at *
  omega

lemma tupleGe_total (p q : Nat × Nat) : tupleGe p q ∨ tupleGe q p := by
  unfold tupleGe
  omega

lemma scoreGe_trans (a b c : LeadRec) (h₁ : scoreGe a b = true)
    (h₂ : scoreGe b c = true) : scoreGe a c = true := by
  simp only [scoreGe, decide_eq_true_eq] at *
  exact tupleGe_trans h₁ h₂

lemma scoreGe_total (a b : LeadRec) : (scoreGe a b || scoreGe b a) = true := by
  simp only [scoreGe, Bool.or_eq_true, decide_eq_true_eq]
  exact tupleGe_total _ _

/-- The quality tier is a function of the score tuple: its rank is the sum
of the two keys. -/
lemma qRank_quality (r : LeadRec) :
    qRank (prospect_quality r) = (prospect_score r).1 + (prospect_score r).2 := by
  by_cases hp : r.phone = "" <;> by_cases hw : r.website = "" <;>
    simp [prospect_quality, prospect_score, qRank, hp, hw]

/-- Score components are bounded (each key is 0, 1 or 2). -/
lemma prospect_score_bounds (r : LeadRec) :
    (prospect_score r).1 ≤ 2 ∧ (prospect_score r).2 ≤ 1 := by
  by_cases hp : r.phone = "" <;> by_cases hw : r.website = "" <;>
    simp [prospect_score, hp, hw]

/-- A higher score tuple never carries a lower quality rank. -/
lemma qRank_mono {a b : LeadRec}
    (h : tupleGe (prospect_score a) (prospect_score b)) :
    qRank (prospect_quality b) ≤ qRank (prospect_quality a) := by
  rw [qRank_quality, qRank_quality]
  have ha := prospect_score_bounds a
  have hb := prospect_score_bounds b
  unfold tupleGe at h
  omega

lemma quality_iff (r : LeadRec) :
    (prospect_quality r = .HOT ↔ (r.phone ≠ "" ∧ r.website = "")) ∧
    (prospect_quality r = .WARM ↔ (r.phone ≠ "" ∧ r.website ≠ "")) ∧
    (prospect_quality r = .COLD ↔ (r.phone = "" ∧ r.website = "")) ∧
    (prospect_quality r = .LOW ↔ (r.phone = "" ∧ r.website ≠ "")) := by
  by_cases hp : r.phone = "" <;> by_cases hw : r.website = "" <;>
    simp [prospect_quality, hp, hw]

/-! ### Claim theorems about the export -/

/-- **C2.** Every row passed to the export carries a `prospect_quality`
that is the deterministic function of phone/website presence: HOT iff
phone present and website absent, WARM iff both present, COLD iff both
absent, LOW iff only the website is present. -/
theorem prospect_quality_deterministic (data : List LeadRec) (row : CsvRow)
    (h : row ∈ csvRows data) :
    (row.prospect_quality = .HOT ↔ (row.phone ≠ "" ∧ row.website = "")) ∧
    (row.prospect_quality = .WARM ↔ (row.phone ≠ "" ∧ row.website ≠ "")) ∧
    (row.prospect_quality = .COLD ↔ (row.phone = "" ∧ row.website = "")) ∧
    (row.prospect_quality = .LOW ↔ (row.phone = "" ∧ row.website ≠ "")) := by
  obtain ⟨r, _, rfl⟩ := List.mem_map.mp h
  exact quality_iff r

/-- Witness for C2: a concrete record with a phone and no website is
exported with quality HOT (among the other three iffs). -/
theorem prospect_quality_deterministic_witness :
    (rowOf ⟨"A", "u", "555-123-4567", "", "No", "", "", none⟩ ∈
      csvRows [⟨"A", "u", "555-123-4567", "", "No", "", "", none⟩]) ∧
    ((rowOf ⟨"A", "u", "555-123-4567", "", "No", "", "", none⟩).prospect_quality = .HOT ↔
      ((rowOf ⟨"A", "u", "555-123-4567", "", "No", "", "", none⟩).phone ≠ "" ∧
       (rowOf ⟨"A", "u", "555-123-4567", "", "No", "", "", none⟩).website = "")) := by
  have hmem : rowOf ⟨"A", "u", "555-123-4567", "", "No", "", "", none⟩ ∈
      csvRows [⟨"A", "u", "555-123-4567", "", "No", "", "", none⟩] := by
    simp [csvRows, sorted_data, List.mergeSort]
  exact ⟨hmem, (prospect_quality_deterministic _ _ hmem).1⟩

/-- **C3.** The export writes the records sorted descending by the two-key
tuple `(has_phone + no_website, has_phone)`: the output is a permutation
of the input, pairwise score-descending, and hence the written row
sequence is grouped HOT first, then WARM, then COLD, with LOW last. -/
theorem export_sorted_by_score (data : List LeadRec) :
    (sorted_data data).Perm data ∧
    List.Pairwise (fun a b => tupleGe (prospect_score a) (prospect_score b))
      (sorted_data data) ∧
    List.Pairwise (fun a b => qRank b.prospect_quality ≤ qRank a.prospect_quality)
      (csvRows data) := by
  have hperm : (sorted_data data).Perm data := List.mergeSort_perm data scoreGe
  have hsorted : List.Pairwise (fun a b => scoreGe a b = true) (sorted_data data) :=
    List.sorted_mergeSort scoreGe_trans scoreGe_total data
  have hsorted' : List.Pairwise
      (fun a b => tupleGe (prospect_score a) (prospect_score b)) (sorted_data data) := by
    refine hsorted.imp ?_
    intro a b hab
    simpa [scoreGe, decide_eq_true_eq] using hab
  refine ⟨hperm, hsorted', ?_⟩
  unfold csvRows
  refine (List.pairwise_map).mpr (hsorted'.imp ?_)
  intro a b hab
  simpa [rowOf] using qRank_mono hab

/-- **C10.** Exporting an empty record list is a no-op on the filesystem:
no file at any path is created, truncated or modified. -/
theorem save_to_csv_empty_noop (filepath : String) (fs : Fs) :
    save_to_csv [] filepath fs = fs ∧
    (∀ p : String, (save_to_csv [] filepath fs).lookup p = fs.lookup p) := by
  refine ⟨rfl, fun p => rfl⟩

/-! ### `scrape_single_profile` (fb_scraper.py lines 777-941)

Stage 1 hands Stage 2 candidate dicts `{'url': href, 'text': name,
'context': context}`, created at lines 732-736. -/

structure Candidate where
  url : String
  text : String
  context : String
deriving DecidableEq, Repr

/-- The fields the in-page extraction script returns
(lines 806-912): `{ phone, website, followers, bio, email }`. -/
structure Extracted where
  phone : String
  website : String
  followers : String
  bio : String
  email : String
deriving DecidableEq, Repr

/-- The page's behaviour for one profile visit: either the navigation and
extraction pass complete and yield the extracted fields, or a timeout /
exception interrupts the guarded block before `extracted` is assigned
(lines 928-931), leaving every contact field at its initial `''`. -/
inductive ProfileOutcome where
  | ok (e : Extracted)
  | fail
deriving DecidableEq, Repr

/-- `re.search(r'/user/(\d+)', original_url)` (line 788): the digit run
following the first occurrence of `/user/` that is followed by at least
one digit. -/
def findUserId (url : String) : Option String :=
  ((url.splitOn "/user/").tail.map (fun part => part.takeWhile Char.isDigit)).find?
    (fun d => !d.isEmpty)

/-- Lines 788-791: group-scoped member links are rewritten to the
standalone `profile.php?id=` form; other URLs pass through unchanged. -/
def normalizeProfileUrl (original : String) : String :=
  match findUserId original with
  | some uid => "https://www.facebook.com/profile.php?id=" ++ uid
  | none => original

/-- Line 780: `match.get('text', '').split('\n')[0].strip()[:100]`. -/
def displayName (text : String) : String :=
  ((text.splitOn "\n").headD "").trim.take 100

/-- Lines 919-926: the `about` string assembled from followers, bio and
email (each included only when non-empty, joined by `' | '`). -/
def aboutOf (e : Extracted) : String :=
  let about_parts :=
    (if e.followers ≠ "" then [e.followers] else []) ++
    (if e.bio ≠ "" then [e.bio] else []) ++
    (if e.email ≠ "" then ["Email: " ++ e.email] else [])
  String.intercalate " | " about_parts

/-- `scrape_single_profile(page, match)`: always returns a record
(lines 933-941); on failure the contact fields keep their initial empty
values.  The URL normalization happens before the first fallible
operation, so the failure record still carries the normalized URL. -/
def scrape_single_profile (m : Candidate) (outcome : ProfileOutcome) : LeadRec :=
  let name := displayName m.text
  let profile_url := normalizeProfileUrl m.url
  let phone := match outcome with | .ok e => e.phone | .fail => ""
  let website := match outcome with | .ok e => e.website | .fail => ""
  let about := match outcome with | .ok e => aboutOf e | .fail => ""
  { name := name
    url := profile_url
    phone := phone
    website := website
    has_website := if website ≠ "" then "Yes" else "No"
    about := about
    work := "" }

/-! ### `stage2_deep_scrape` (fb_scraper.py lines 944-1061)

The environment carries the page's behaviour for the visit of each
candidate index, and the wall-clock reading taken at each index.  The
checkpoint CSV writes and status callbacks do not affect the returned
result list and are omitted here; `scrape_single_profile` is total on
well-formed candidates (every exception inside it is caught at lines
928-931), so the per-candidate `except` branch of the loop (lines
1022-1045) never fires on candidates produced by Stage 1. -/

structure Stage2Env where
  outcome : Nat → ProfileOutcome
  elapsed : Nat → Nat

/-- The Stage 2 loop (lines 969-1048): every 50th index the elapsed time
is compared against the 4-hour budget and the loop breaks, returning the
results accumulated so far; otherwise the candidate's record is appended
and the loop advances. -/
def stage2_go (env : Stage2Env) : Nat → List Candidate → List LeadRec
  | _, [] => []
  | idx, m :: rest =>
    if idx % 50 = 0 ∧ env.elapsed idx > 14400 then []
    else scrape_single_profile m (env.outcome idx) :: stage2_go env (idx + 1) rest

def stage2_deep_scrape (env : Stage2Env) (ms : List Candidate) : List LeadRec :=
  stage2_go env 0 ms

lemma stage2_go_eq_mapIdx (env : Stage2Env) :
    ∀ (ms : List Candidate) (idx : Nat),
      (∀ i, i < ms.length → (idx + i) % 50 = 0 → env.elapsed (idx + i) ≤ 14400) →
      stage2_go env idx ms
        = ms.mapIdx (fun i m => scrape_single_profile m (env.outcome (idx + i)))
  | [], _, _ => by simp [stage2_go]
  | m :: rest, idx, h => by
    have h0 : ¬ (idx % 50 = 0 ∧ env.elapsed idx > 14400) := by
      intro ⟨h50, helapsed⟩
      have := h 0 (by simp) (by simpa using h50)
      simp at this
      omega
    have ih := stage2_go_eq_mapIdx env rest (idx + 1) (by
      intro i hi h50
      have := h (i + 1) (by simpa using Nat.succ_lt_succ hi)
      rw [show idx + (i + 1) = idx + 1 + i by omega] at this
      exact this h50)
    have hfun : (fun i m => scrape_single_profile m (env.outcome (idx + 1 + i)))
        = (fun i (m : Candidate) => scrape_single_profile m (env.outcome (idx + (i + 1)))) := by
      funext i m
      rw [show idx + 1 + i = idx + (i + 1) by omega]
    simp only [stage2_go, if_neg h0, ih, hfun, List.mapIdx_cons, Nat.add_zero]

/-- **C1.** Stage 2 emits exactly one record per candidate, in input
order: absent a wall-clock timeout break, the result list is the
index-wise image of the candidate list, so it has the same length; a
candidate whose extraction fails still contributes a record, with empty
phone, website and about fields. -/
theorem stage2_one_record_per_candidate (env : Stage2Env) (ms : List Candidate)
    (h : ∀ i, i < ms.length → i % 50 = 0 → env.elapsed i ≤ 14400) :
    stage2_deep_scrape env ms
      = ms.mapIdx (fun i m => scrape_single_profile m (env.outcome i)) ∧
    (stage2_deep_scrape env ms).length = ms.length ∧
    (∀ m : Candidate,
      (scrape_single_profile m .fail).phone = "" ∧
      (scrape_single_profile m .fail).website = "" ∧
      (scrape_single_profile m .fail).about = "") := by
  have hmain := stage2_go_eq_mapIdx env ms 0 (by simpa using h)
  have hmain' : stage2_deep_scrape env ms
      = ms.mapIdx (fun i m => scrape_single_profile m (env.outcome i)) := by
    simpa [stage2_deep_scrape] using hmain
  refine ⟨hmain', ?_, ?_⟩
  · rw [hmain', List.length_mapIdx]
  · intro m
    exact ⟨rfl, rfl, rfl⟩

/-- Concrete environment for the C1 witness: every profile visit fails,
the clock never advances. -/
def c1Env : Stage2Env := ⟨fun _ => .fail, fun _ => 0⟩

/-- Concrete candidate for the C1 witness. -/
def c1Cand : Candidate :=
  ⟨"https://www.facebook.com/groups/g/user/12345/", "Alice Plumber\nJoined 2020", "plumbing contractor"⟩

/-- Witness for C1: on a one-candidate list whose visit fails, the
timeout hypothesis holds and Stage 2 still returns one record. -/
theorem stage2_one_record_per_candidate_witness :
    (∀ i, i < ([c1Cand] : List Candidate).length → i % 50 = 0 → c1Env.elapsed i ≤ 14400) ∧
    (stage2_deep_scrape c1Env [c1Cand]).length = ([c1Cand] : List Candidate).length :=
  ⟨by decide, (stage2_one_record_per_candidate c1Env [c1Cand] (by decide)).2.1⟩

/-- **C8.** Every record the single-profile scrape produces has
`has_website = 'Yes'` exactly when `website` is non-empty and `'No'`
otherwise; consequently its quality tier is consistent with
`has_website`: LOW/WARM records carry `'Yes'`, HOT/COLD carry `'No'`. -/
theorem has_website_consistent (m : Candidate) (outcome : ProfileOutcome) :
    ((scrape_single_profile m outcome).has_website = "Yes"
        ↔ (scrape_single_profile m outcome).website ≠ "") ∧
    ((scrape_single_profile m outcome).has_website = "No"
        ↔ (scrape_single_profile m outcome).website = "") ∧
    ((prospect_quality (scrape_single_profile m outcome) = .LOW ∨
        prospect_quality (scrape_single_profile m outcome) = .WARM)
      ↔ (scrape_single_profile m outcome).has_website = "Yes") ∧
    ((prospect_quality (scrape_single_profile m outcome) = .HOT ∨
        prospect_quality (scrape_single_profile m outcome) = .COLD)
      ↔ (scrape_single_profile m outcome).has_website = "No") := by
  have hq := quality_iff (scrape_single_profile m outcome)
  rcases outcome with e | _
  · by_cases hw : e.website = "" <;> by_cases hp : e.phone = "" <;>
      simp_all [scrape_single_profile]
  · simp_all [scrape_single_profile]

/-! ### `stage1_collect_links` (fb_scraper.py lines 602-774)

The environment gives, for each iteration of the scroll loop: the outcome
of the member-extraction `page.evaluate` (an exception or a list of raw
member items), whether the `window.scrollBy` evaluate succeeds (its
failure is caught at lines 765-767 and skips the `scroll_count`
increment), the elapsed wall-clock seconds read at the iteration's
periodic timeout check, and the `is_qualified_prospect` filter (imported
from `industry_config`, with the industry argument already applied). -/

structure RawMember where
  href : String
  name : String
  context : String
deriving DecidableEq, Repr

structure Stage1Env where
  extraction : Nat → Except Unit (List RawMember)
  scrollOk : Nat → Bool
  elapsed : Nat → Nat
  qualified : String → Bool

/-- The invalid display names skipped at line 721. -/
def uiLabels : List String := ["see more", "view profile", "message", "add friend"]

/-- Python's `name.lower()`: per-character lowercasing, written by
structural recursion over the character list so that proofs can evaluate
it (it maps the same characters as `String.toLower`). -/
def strLower (s : String) : String := String.mk (s.data.map Char.toLower)

/-- Loop state of `stage1_collect_links`: the `all_scanned` set (modelled
as the list of insertions, newest first), the `matches` list, the stall
counter, the scroll counter, the consecutive-error counter, and the
iteration index used to address the environment. -/
structure Stage1State where
  all_scanned : List String
  matches' : List Candidate
  no_new_count : Nat
  scroll_count : Nat
  consecutive_errors : Nat
  iter : Nat
deriving DecidableEq, Repr

/-- The member-processing loop of one extraction pass (lines 711-736):
skip already-seen identities, skip names shorter than 2 characters or
equal (lowercased) to a UI label, otherwise record the identity, count it
as new, and append a candidate when the qualification filter accepts the
combined name-and-context text.  Returns
`(all_scanned, matches, new_found)`. -/
def processMembers (qualified : String → Bool) :
    List RawMember → List String → List Candidate → Nat →
      List String × List Candidate × Nat
  | [], scanned, ms, newFound => (scanned, ms, newFound)
  | item :: rest, scanned, ms, newFound =>
    if item.href ∈ scanned then
      processMembers qualified rest scanned ms newFound
    else if item.name.length < 2 ∨ strLower item.name ∈ uiLabels then
      processMembers qualified rest scanned ms newFound
    else
      processMembers qualified rest (item.href :: scanned)
        (if qualified (item.name ++ " " ++ item.context) then
          ms ++ [⟨item.href, item.name, item.context⟩]
         else ms)
        (newFound + 1)

/-- Why the Stage 1 loop stopped. -/
inductive StopReason where
  | maxScrolls
  | stalled
  | timeout
  | errorBudget
deriving DecidableEq, Repr

inductive Stage1StepRes where
  | next (s : Stage1State)
  | stop (r : StopReason) (s : Stage1State)
deriving DecidableEq, Repr

/-- One pass of the `while scroll_count < max_scrolls and no_new_count < 20`
loop (lines 633-767), in source order: the while condition itself
(`max_scrolls = 50000`, stall patience 20); the periodic timeout check
(only when `scroll_count % 100 == 0`, 3-hour budget, line 634-639); then
the extraction attempt.  A failed extraction increments the
consecutive-error counter and skips the rest of the iteration (so neither
the stall counter nor the scroll counter moves), breaking once the counter
reaches `max_consecutive_errors = 5`; a successful extraction resets the
error counter, processes the members, updates the stall counter, and
scrolls — `scroll_count` advances only if the scroll evaluate succeeds. -/
def stage1_step (env : Stage1Env) (s : Stage1State) : Stage1StepRes :=
  if 50000 ≤ s.scroll_count then .stop .maxScrolls s
  else if 20 ≤ s.no_new_count then .stop .stalled s
  else if s.scroll_count % 100 = 0 ∧ 10800 < env.elapsed s.iter then .stop .timeout s
  else
    match env.extraction s.iter with
    | .error _ =>
      if 5 ≤ s.consecutive_errors + 1 then
        .stop .errorBudget { s with consecutive_errors := s.consecutive_errors + 1,
                                    iter := s.iter + 1 }
      else
        .next { s with consecutive_errors := s.consecutive_errors + 1,
                       iter := s.iter + 1 }
    | .ok items =>
      let res := processMembers env.qualified items s.all_scanned s.matches' 0
      .next { all_scanned := res.1
              matches' := res.2.1
              no_new_count := if res.2.2 = 0 then s.no_new_count + 1 else 0
              scroll_count := if env.scrollOk s.iter then s.scroll_count + 1
                              else s.scroll_count
              consecutive_errors := 0
              iter := s.iter + 1 }

inductive Stage1RunRes where
  | finished (r : StopReason) (s : Stage1State)
  | fuelOut (s : Stage1State)
deriving DecidableEq, Repr

/-- Iterate `stage1_step` with a fuel bound (the Python loop has no fuel;
`fuelOut` marks runs the given bound cannot finish). -/
def stage1_run (env : Stage1Env) : Nat → Stage1State → Stage1RunRes
  | 0, s => .fuelOut s
  | fuel + 1, s =>
    match stage1_step env s with
    | .stop r s' => .finished r s'
    | .next s' => stage1_run env fuel s'

/-- Initial loop state (lines 612-619). -/
def stage1_init : Stage1State :=
  { all_scanned := [], matches' := [], no_new_count := 0, scroll_count := 0,
    consecutive_errors := 0, iter := 0 }

def Stage1RunRes.state : Stage1RunRes → Stage1State
  | .finished _ s => s
  | .fuelOut s => s

/-! ### Stage 1 invariants (C6, C9) -/

/-- Invariant tying `matches` to `all_scanned`: the scanned set has no
duplicates, candidate URLs have no duplicates, and every candidate's URL
is scanned and its display name passed the validity filter. -/
def Stage1Inv (s : Stage1State) : Prop :=
  s.all_scanned.Nodup ∧
  (s.matches'.map Candidate.url).Nodup ∧
  ∀ c ∈ s.matches', c.url ∈ s.all_scanned ∧
    2 ≤ c.text.length ∧ strLower c.text ∉ uiLabels

lemma processMembers_scanned_sub (qualified : String → Bool) :
    ∀ (items : List RawMember) (scanned : List String) (ms : List Candidate)
      (nf : Nat) (u : String),
      u ∈ scanned → u ∈ (processMembers qualified items scanned ms nf).1
  | [], _, _, _, _, h => h
  | item :: rest, scanned, ms, nf, u, h => by
    unfold processMembers
    split_ifs with h1 h2 hq
    · exact processMembers_scanned_sub qualified rest scanned ms nf u h
    · exact processMembers_scanned_sub qualified rest scanned ms nf u h
    · exact processMembers_scanned_sub qualified rest _ _ _ u (List.mem_cons_of_mem _ h)
    · exact processMembers_scanned_sub qualified rest _ _ _ u (List.mem_cons_of_mem _ h)

lemma processMembers_inv (qualified : String → Bool) :
    ∀ (items : List RawMember) (scanned : List String) (ms : List Candidate)
      (nf : Nat),
      scanned.Nodup →
      (ms.map Candidate.url).Nodup →
      (∀ c ∈ ms, c.url ∈ scanned ∧ 2 ≤ c.text.length ∧ strLower c.text ∉ uiLabels) →
      (processMembers qualified items scanned ms nf).1.Nodup ∧
      ((processMembers qualified items scanned ms nf).2.1.map Candidate.url).Nodup ∧
      (∀ c ∈ (processMembers qualified items scanned ms nf).2.1,
        c.url ∈ (processMembers qualified items scanned ms nf).1 ∧
        2 ≤ c.text.length ∧ strLower c.text ∉ uiLabels)
  | [], scanned, ms, nf, hsc, hms, hlink => by
    refine ⟨hsc, hms, fun c hc => ?_⟩
    exact ⟨(hlink c hc).1, (hlink c hc).2⟩
  | item :: rest, scanned, ms, nf, hsc, hms, hlink => by
    unfold processMembers
    split_ifs with h1 h2 hq
    · exact processMembers_inv qualified rest scanned ms nf hsc hms hlink
    · exact processMembers_inv qualified rest scanned ms nf hsc hms hlink
    · push_neg at h2
      refine processMembers_inv qualified rest (item.href :: scanned) _ (nf + 1)
        (List.nodup_cons.mpr ⟨h1, hsc⟩) ?_ ?_
      · rw [List.map_append]
        refine List.Nodup.append hms (by simp) ?_
        intro u hu hu'
        simp only [List.map_cons, List.map_nil, List.mem_singleton] at hu'
        subst hu'
        obtain ⟨c, hc, hcu⟩ := List.mem_map.mp hu
        exact h1 (hcu ▸ (hlink c hc).1)
      · intro c hc
        rcases List.mem_append.mp hc with hc' | hc'
        · exact ⟨List.mem_cons_of_mem _ (hlink c hc').1, (hlink c hc').2⟩
        · simp only [List.mem_singleton] at hc'
          subst hc'
          exact ⟨List.mem_cons_self _ _, h2⟩
    · push_neg at h2
      refine processMembers_inv qualified rest (item.href :: scanned) ms (nf + 1)
        (List.nodup_cons.mpr ⟨h1, hsc⟩) hms ?_
      intro c hc
      exact ⟨List.mem_cons_of_mem _ (hlink c hc).1, (hlink c hc).2⟩

/-- Every identity in the scanned set after a pass was either already
there or came from an item of the pass whose name passed the validity
filter. -/
lemma processMembers_scanned_src (qualified : String → Bool) :
    ∀ (items : List RawMember) (scanned : List String) (ms : List Candidate)
      (nf : Nat) (u : String),
      u ∈ (processMembers qualified items scanned ms nf).1 →
      u ∈ scanned ∨ ∃ it ∈ items, it.href = u ∧
        2 ≤ it.name.length ∧ strLower it.name ∉ uiLabels
  | [], _, _, _, _, h => Or.inl h
  | item :: rest, scanned, ms, nf, u, h => by
    unfold processMembers at h
    split_ifs at h with h1 h2 hq
    · rcases processMembers_scanned_src qualified rest scanned ms nf u h with h' | ⟨it, hit, hrest⟩
      · exact Or.inl h'
      · exact Or.inr ⟨it, List.mem_cons_of_mem _ hit, hrest⟩
    · rcases processMembers_scanned_src qualified rest scanned ms nf u h with h' | ⟨it, hit, hrest⟩
      · exact Or.inl h'
      · exact Or.inr ⟨it, List.mem_cons_of_mem _ hit, hrest⟩
    · push_neg at h2
      rcases processMembers_scanned_src qualified rest _ _ _ u h with h' | ⟨it, hit, hrest⟩
      · rcases List.mem_cons.mp h' with rfl | h''
        · exact Or.inr ⟨item, List.mem_cons_self _ _, rfl, h2⟩
        · exact Or.inl h''
      · exact Or.inr ⟨it, List.mem_cons_of_mem _ hit, hrest⟩
    · push_neg at h2
      rcases processMembers_scanned_src qualified rest _ _ _ u h with h' | ⟨it, hit, hrest⟩
      · rcases List.mem_cons.mp h' with rfl | h''
        · exact Or.inr ⟨item, List.mem_cons_self _ _, rfl, h2⟩
        · exact Or.inl h''
      · exact Or.inr ⟨it, List.mem_cons_of_mem _ hit, hrest⟩

/-- The state carried by a step result. -/
def Stage1StepRes.state : Stage1StepRes → Stage1State
  | .next s => s
  | .stop _ s => s

lemma stage1_step_inv (env : Stage1Env) (s : Stage1State) (h : Stage1Inv s) :
    Stage1Inv (stage1_step env s).state := by
  obtain ⟨hsc, hms, hlink⟩ := h
  unfold stage1_step
  by_cases h1 : 50000 ≤ s.scroll_count
  · rw [if_pos h1]; exact ⟨hsc, hms, hlink⟩
  rw [if_neg h1]
  by_cases h2 : 20 ≤ s.no_new_count
  · rw [if_pos h2]; exact ⟨hsc, hms, hlink⟩
  rw [if_neg h2]
  by_cases h3 : s.scroll_count % 100 = 0 ∧ 10800 < env.elapsed s.iter
  · rw [if_pos h3]; exact ⟨hsc, hms, hlink⟩
  rw [if_neg h3]
  rcases hex : env.extraction s.iter with e | items
  · split_ifs with h4 <;> exact ⟨hsc, hms, hlink⟩
  · exact processMembers_inv env.qualified items s.all_scanned s.matches' 0 hsc hms hlink

lemma stage1_run_inv (env : Stage1Env) :
    ∀ (fuel : Nat) (s : Stage1State), Stage1Inv s →
      Stage1Inv (stage1_run env fuel s).state
  | 0, s, h => h
  | fuel + 1, s, h => by
    have hstep := stage1_step_inv env s h
    unfold stage1_run
    rcases hres : stage1_step env s with s' | ⟨r, s'⟩
    · rw [hres] at hstep
      exact stage1_run_inv env fuel s' hstep
    · rw [hres] at hstep
      exact hstep

/-- **C6.** Within one Stage 1 run, identities are deduplicated: the
`all_scanned` set holds each URL at most once (exactly once for every URL
it contains), and at most one candidate with any given URL is ever
appended to `matches`. -/
theorem stage1_dedup (env : Stage1Env) (fuel : Nat) :
    ((stage1_run env fuel stage1_init).state.all_scanned.Nodup) ∧
    (∀ u ∈ (stage1_run env fuel stage1_init).state.all_scanned,
      (stage1_run env fuel stage1_init).state.all_scanned.count u = 1) ∧
    (∀ u : String,
      ((stage1_run env fuel stage1_init).state.matches'.map Candidate.url).count u ≤ 1) := by
  have hinv : Stage1Inv (stage1_run env fuel stage1_init).state :=
    stage1_run_inv env fuel stage1_init (by exact ⟨List.nodup_nil, List.nodup_nil, by simp [stage1_init]⟩)
  obtain ⟨hsc, hms, _⟩ := hinv
  refine ⟨hsc, fun u hu => List.count_eq_one_of_mem hsc hu, fun u => ?_⟩
  exact List.nodup_iff_count_le_one.mp hms u

/-- **C9.** Stage 1 never records an entry whose display name is shorter
than 2 characters or whose lowercased name is a UI label: every candidate
in `matches` has a valid name, and any identity added to `all_scanned` by
a pass came from an item with a valid name. -/
theorem stage1_name_filter (env : Stage1Env) (fuel : Nat) :
    (∀ c ∈ (stage1_run env fuel stage1_init).state.matches',
      2 ≤ c.text.length ∧ strLower c.text ∉ uiLabels) ∧
    (∀ (qualified : String → Bool) (items : List RawMember)
       (scanned : List String) (ms : List Candidate) (nf : Nat) (u : String),
      u ∈ (processMembers qualified items scanned ms nf).1 →
      u ∈ scanned ∨ ∃ it ∈ items, it.href = u ∧
        2 ≤ it.name.length ∧ strLower it.name ∉ uiLabels) := by
  have hinv : Stage1Inv (stage1_run env fuel stage1_init).state :=
    stage1_run_inv env fuel stage1_init (by exact ⟨List.nodup_nil, List.nodup_nil, by simp [stage1_init]⟩)
  exact ⟨fun c hc => (hinv.2.2 c hc).2, processMembers_scanned_src⟩

/-! ### Stage 1 termination and stop conditions (C5) -/

/-- Whether the extraction pass of an iteration raised. -/
def isErr : Except Unit (List RawMember) → Bool
  | .error _ => true
  | .ok _ => false

/-- The spec's list of Stage 1 termination conditions, first to trigger
wins: maximum iteration count reached; 20 consecutive iterations without
a new identity; wall-clock budget found exceeded at a periodic check
(performed only when the scroll counter is a multiple of 100); or the
extraction errs with the 5-error consecutive budget already exhausted by
4 previous consecutive errors.  Written from the spec's wording, to be
compared against `stage1_step`. -/
def stage1StopSpec (env : Stage1Env) (s : Stage1State) : Option StopReason :=
  if 50000 ≤ s.scroll_count then some .maxScrolls
  else if 20 ≤ s.no_new_count then some .stalled
  else if s.scroll_count % 100 = 0 ∧ 10800 < env.elapsed s.iter then some .timeout
  else if isErr (env.extraction s.iter) = true ∧ 4 ≤ s.consecutive_errors then
    some .errorBudget
  else none

lemma stage1_step_stop_iff (env : Stage1Env) (s : Stage1State) (r : StopReason) :
    (∃ s', stage1_step env s = .stop r s') ↔ stage1StopSpec env s = some r := by
  unfold stage1_step stage1StopSpec
  by_cases h1 : 50000 ≤ s.scroll_count
  · rw [if_pos h1, if_pos h1]; simp [eq_comm]
  rw [if_neg h1, if_neg h1]
  by_cases h2 : 20 ≤ s.no_new_count
  · rw [if_pos h2, if_pos h2]; simp [eq_comm]
  rw [if_neg h2, if_neg h2]
  by_cases h3 : s.scroll_count % 100 = 0 ∧ 10800 < env.elapsed s.iter
  · rw [if_pos h3, if_pos h3]; simp [eq_comm]
  rw [if_neg h3, if_neg h3]
  rcases hex : env.extraction s.iter with e | items
  · by_cases h4 : 4 ≤ s.consecutive_errors
    · rw [if_pos (show 5 ≤ s.consecutive_errors + 1 by omega),
        if_pos (show isErr (Except.error e) = true ∧ 4 ≤ s.consecutive_errors from ⟨rfl, h4⟩)]
      simp [eq_comm]
    · rw [if_neg (show ¬ 5 ≤ s.consecutive_errors + 1 by omega),
        if_neg (show ¬ (isErr (Except.error e) = true ∧ 4 ≤ s.consecutive_errors) from
          fun hh => h4 hh.2)]
      simp
  · rw [if_neg (show ¬ (isErr (Except.ok items) = true ∧ 4 ≤ s.consecutive_errors) from
      fun hh => by simpa [isErr] using hh.1)]
    simp

/-- Decreasing measure of the Stage 1 loop when every scroll succeeds. -/
def stage1Measure (s : Stage1State) : Nat :=
  6 * (50000 - s.scroll_count) + (5 - s.consecutive_errors)

lemma stage1_step_next_measure (env : Stage1Env) (s s' : Stage1State)
    (hok : env.scrollOk s.iter = true) (hce : s.consecutive_errors ≤ 4)
    (hres : stage1_step env s = .next s') :
    s'.consecutive_errors ≤ 4 ∧ stage1Measure s' < stage1Measure s := by
  unfold stage1_step at hres
  by_cases h1 : 50000 ≤ s.scroll_count
  · rw [if_pos h1] at hres; cases hres
  rw [if_neg h1] at hres
  by_cases h2 : 20 ≤ s.no_new_count
  · rw [if_pos h2] at hres; cases hres
  rw [if_neg h2] at hres
  by_cases h3 : s.scroll_count % 100 = 0 ∧ 10800 < env.elapsed s.iter
  · rw [if_pos h3] at hres; cases hres
  rw [if_neg h3] at hres
  rcases hex : env.extraction s.iter with e | items <;> rw [hex] at hres
  · by_cases h4 : 5 ≤ s.consecutive_errors + 1
    · rw [if_pos h4] at hres; cases hres
    · rw [if_neg h4] at hres
      injection hres with hres
      subst hres
      unfold stage1Measure
      simp only []
      omega
  · simp only [] at hres
    injection hres with hres
    subst hres
    unfold stage1Measure
    simp only [hok, if_true]
    omega

lemma stage1_run_finishes (env : Stage1Env) (hscroll : ∀ n, env.scrollOk n = true) :
    ∀ (fuel : Nat) (s : Stage1State), s.consecutive_errors ≤ 4 →
      stage1Measure s < fuel →
      ∃ r s', stage1_run env fuel s = .finished r s'
  | 0, _, _, hlt => absurd hlt (by omega)
  | fuel + 1, s, hce, hlt => by
    unfold stage1_run
    rcases hres : stage1_step env s with s' | ⟨r, s'⟩
    · obtain ⟨hce', hmeas⟩ :=
        stage1_step_next_measure env s s' (hscroll s.iter) hce hres
      obtain ⟨r, s'', hfin⟩ := stage1_run_finishes env hscroll fuel s' hce' (by omega)
      exact ⟨r, s'', hfin⟩
    · exact ⟨r, s', rfl⟩

/-! #### Non-termination counterexample

An environment under which the Stage 1 loop never stops: the first scroll
succeeds and every later one fails (lines 756-767 catch the failure and
skip the `scroll_count` increment), while every extraction pass keeps
yielding one fresh identity.  The scroll counter then sticks at 1, so the
periodic timeout check (`scroll_count % 100 == 0`) never runs again even
though the clock grows without bound, the stall counter stays 0, and no
errors accumulate. -/

/-- Fresh pairwise-distinct identity URLs (distinguished by length). -/
def cexHref (n : Nat) : String := String.mk (List.replicate (n + 1) 'u')

lemma cexHref_inj {m n : Nat} (h : cexHref m = cexHref n) : m = n := by
  have := congrArg String.length h
  simpa [cexHref, String.length] using this

def c5CexEnv : Stage1Env :=
  { extraction := fun n => .ok [⟨cexHref n, "Bob", ""⟩]
    scrollOk := fun n => decide (n = 0)
    elapsed := fun n => n
    qualified := fun _ => false }

/-- States reachable under `c5CexEnv`. -/
def c5Inv (s : Stage1State) : Prop :=
  ((s.scroll_count = 0 ∧ s.iter = 0) ∨ (s.scroll_count = 1 ∧ 1 ≤ s.iter)) ∧
  s.no_new_count = 0 ∧
  s.consecutive_errors = 0 ∧
  ∀ u ∈ s.all_scanned, ∃ k, k < s.iter ∧ u = cexHref k

lemma c5_step (s : Stage1State) (h : c5Inv s) :
    ∃ s', stage1_step c5CexEnv s = .next s' ∧ c5Inv s' := by
  obtain ⟨hsc, hnn, hce, hscan⟩ := h
  have hnotin : cexHref s.iter ∉ s.all_scanned := by
    intro hmem
    obtain ⟨k, hk, hku⟩ := hscan _ hmem
    exact absurd (cexHref_inj hku.symm) (by omega)
  have hname : ¬ (("Bob" : String).length < 2 ∨ strLower "Bob" ∈ uiLabels) := by
    decide
  have hproc : processMembers c5CexEnv.qualified [⟨cexHref s.iter, "Bob", ""⟩]
      s.all_scanned s.matches' 0
      = (cexHref s.iter :: s.all_scanned, s.matches', 1) := by
    unfold processMembers
    rw [if_neg hnotin, if_neg hname]
    simp [processMembers, c5CexEnv]
  unfold stage1_step
  have h1 : ¬ 50000 ≤ s.scroll_count := by rcases hsc with ⟨h, _⟩ | ⟨h, _⟩ <;> omega
  rw [if_neg h1]
  rw [if_neg (show ¬ 20 ≤ s.no_new_count by omega)]
  have h3 : ¬ (s.scroll_count % 100 = 0 ∧ 10800 < c5CexEnv.elapsed s.iter) := by
    rcases hsc with ⟨hc, hi⟩ | ⟨hc, hi⟩
    · rw [hc, hi]; simp [c5CexEnv]
    · rw [hc]; simp
  rw [if_neg h3]
  have hex : c5CexEnv.extraction s.iter = .ok [⟨cexHref s.iter, "Bob", ""⟩] := rfl
  rw [hex]
  simp only [hproc]
  refine ⟨_, rfl, ?_⟩
  rcases hsc with ⟨hc, hi⟩ | ⟨hc, hi⟩
  · refine ⟨?_, by simp, by simp, ?_⟩
    · right
      constructor
      · simp [c5CexEnv, hi, hc]
      · simp
    · intro u hu
      rcases List.mem_cons.mp hu with rfl | hu'
      · exact ⟨s.iter, Nat.lt_succ_self _, rfl⟩
      · obtain ⟨k, hk, hku⟩ := hscan _ hu'
        exact ⟨k, Nat.lt_succ_of_lt hk, hku⟩
  · refine ⟨?_, by simp, by simp, ?_⟩
    · right
      constructor
      · have : ¬ (s.iter = 0) := by omega
        simp [c5CexEnv, this, hc]
      · simp
    · intro u hu
      rcases List.mem_cons.mp hu with rfl | hu'
      · exact ⟨s.iter, Nat.lt_succ_self _, rfl⟩
      · obtain ⟨k, hk, hku⟩ := hscan _ hu'
        exact ⟨k, Nat.lt_succ_of_lt hk, hku⟩

lemma c5_run_fuelOut :
    ∀ (fuel : Nat) (s : Stage1State), c5Inv s →
      ∀ (r : StopReason) (s' : Stage1State),
        stage1_run c5CexEnv fuel s ≠ .finished r s'
  | 0, s, _ => by
    intro r s'
    simp [stage1_run]
  | fuel + 1, s, h => by
    obtain ⟨s', hstep, hinv⟩ := c5_step s h
    intro r s'' hc
    unfold stage1_run at hc
    rw [hstep] at hc
    exact c5_run_fuelOut fuel s' hinv r s'' hc

/-- Counterexample for **C5** as stated: the Stage 1 loop does not always
terminate.  Under `c5CexEnv` — the first scroll succeeds, every later
scroll evaluate raises (caught, skipping the scroll-count increment), the
extraction keeps finding one fresh member per pass, and the wall clock
grows without bound — no fuel bound suffices: none of the four stop
conditions ever fires, because the periodic timeout check requires
`scroll_count % 100 == 0` while `scroll_count` is stuck at 1. -/
theorem stage1_termination_counterexample :
    ¬ ∀ env : Stage1Env, ∃ fuel r s,
        stage1_run env fuel stage1_init = .finished r s := by
  intro h
  obtain ⟨fuel, r, s, hf⟩ := h c5CexEnv
  have hinv : c5Inv stage1_init := by
    refine ⟨Or.inl ⟨rfl, rfl⟩, rfl, rfl, ?_⟩
    intro u hu
    simp [stage1_init] at hu
  exact c5_run_fuelOut fuel stage1_init hinv r s hf

/-- **C5 (amended).** Provided every iteration's scroll step succeeds, the
Stage 1 loop terminates (within `6 * 50000 + 6` iterations); and one loop
pass stops with a given reason exactly when the spec's stop-condition
list, in its first-to-trigger order, yields that reason: maximum scroll
count 50000 reached; 20 consecutive passes without a new identity; the
3-hour budget found exceeded at a check performed only when the scroll
counter is a multiple of 100; or a fifth consecutive extraction error. -/
theorem stage1_terminates_and_stop_conditions :
    (∀ env : Stage1Env, (∀ n, env.scrollOk n = true) →
      ∃ r s, stage1_run env 300006 stage1_init = .finished r s) ∧
    (∀ (env : Stage1Env) (s : Stage1State) (r : StopReason),
      (∃ s', stage1_step env s = .stop r s') ↔ stage1StopSpec env s = some r) := by
  constructor
  · intro env hscroll
    exact stage1_run_finishes env hscroll 300006 stage1_init (by simp [stage1_init])
      (by simp [stage1Measure, stage1_init])
  · exact stage1_step_stop_iff

/-- Environment for the C5 witness: scrolls always succeed, extraction
always returns an empty pass. -/
def c5WitnessEnv : Stage1Env :=
  ⟨fun _ => .ok [], fun _ => true, fun _ => 0, fun _ => false⟩

/-- Witness for the amended C5: under an environment whose scrolls all
succeed, the hypothesis holds and Stage 1 finishes. -/
theorem stage1_terminates_witness :
    (∀ n, c5WitnessEnv.scrollOk n = true) ∧
    ∃ r s, stage1_run c5WitnessEnv 300006 stage1_init = .finished r s :=
  ⟨fun _ => rfl,
   stage1_terminates_and_stop_conditions.1 c5WitnessEnv (fun _ => rfl)⟩

/-! ### `scrape_facebook_group` (fb_scraper.py lines 294-599)

The driver is modelled with its callees' outcomes provided by a per-URL
environment: the success of the `page.goto` to the members page, the
`is_login_page` verdict, the page title, Stage 1's returned dict, and the
page behaviour during Stage 2 (Stage 1's and Stage 2's own internals are
verified above against their separate environments).  The status events
the two stages emit through the callback all carry status `'running'`
(lines 745, 988, 1007), so counting error-status events over the driver's
own events is faithful.  Cookies matter to the driver only through
emptiness (`if not cookies`, line 317). -/

structure Cookie where
  name : String
  value : String
deriving DecidableEq, Repr

/-- One `status_callback` event, reduced to the fields the claims talk
about. -/
structure Event where
  status : String
  message : String
deriving DecidableEq, Repr

/-- Event construction shorthand. -/
def ev (status message : String) : Event := ⟨status, message⟩

/-- Environment for the processing of one target URL. -/
structure UrlEnv where
  navOk : Bool
  navErrMsg : String
  loginPage : Bool
  title : Option String
  all_scanned : List String
  matches' : List Candidate
  s2 : Stage2Env

/-- Group-name extraction from the page title (lines 424-432):
`'unknown_group'` unless the title is non-empty; `split('|')[0].strip()`
when a `|` is present, otherwise the stripped title. -/
def groupNameOf (title : Option String) : String :=
  match title with
  | none => "unknown_group"
  | some t =>
    if t ≠ "" ∧ t.contains '|' then ((t.splitOn "|").headD "").trim
    else if t ≠ "" then t.trim
    else "unknown_group"

/-- One entry of the driver's `results` list (success shape at lines
482-497 / 511-517, error shape at lines 532-536). -/
structure UrlResult where
  url : String
  group_name : Option String
  members_scanned : Option Nat
  matches_found : Nat
  savedIndividualCsv : Bool
  error : Option String
deriving DecidableEq, Repr

/-- Driver accumulator: emitted events, per-URL results, accumulated
leads, totals, group names, and how many URL loop bodies were entered. -/
structure DriverState where
  events : List Event
  results : List UrlResult
  all_matches : List LeadRec
  total_scanned : Nat
  group_names : List String
  processed : Nat
deriving Repr

/-- The `for url_idx, url in enumerate(urls)` loop (lines 395-545).
Returns the final accumulator and whether the loop aborted on a detected
login page (lines 413-421), in which case the function returns
immediately. -/
def processUrlsLoop (n : Nat) (envs : Nat → UrlEnv) :
    List String → Nat → DriverState → DriverState × Bool
  | [], _, st => (st, false)
  | url :: rest, i, st =>
    let env := envs i
    let st := { st with
      processed := st.processed + 1
      events := st.events ++ [ev "running" s!"Processing URL {i + 1}/{n}: {url}"] }
    if env.navOk = false then
      -- `page.goto` raised; the per-URL `except` logs, records an error
      -- entry and continues with the next URL (lines 529-545)
      processUrlsLoop n envs rest (i + 1)
        { st with
          results := st.results ++ [UrlResult.mk url none none 0 false (some env.navErrMsg)]
          events := st.events ++
            [ev "running" s!"Error on group {i + 1}/{n}, continuing to next..."] }
    else if env.loginPage then
      ({ st with events := st.events ++
          [ev "error" "Facebook login required. Please update your cookies."] }, true)
    else
      let g := groupNameOf env.title
      let st := { st with
        group_names := st.group_names ++ [g]
        events := st.events ++
          [ev "running" s!"Stage 1: Collecting member links from {g}..."]
        total_scanned := st.total_scanned + env.all_scanned.length }
      if env.matches' ≠ [] then
        let scraped := stage2_deep_scrape env.s2 env.matches'
        let m := env.matches'.length
        processUrlsLoop n envs rest (i + 1)
          { st with
            events := st.events ++
              [ev "running" s!"Stage 2: Deep scraping {m} profiles..."] ++
              [ev "running" s!"Completed group {i + 1}/{n}: {g} ({scraped.length} leads). Moving to next..."]
            all_matches := st.all_matches ++ scraped
            results := st.results ++
              [UrlResult.mk url (some g) (some env.all_scanned.length) scraped.length
                (decide (n = 1 ∧ scraped ≠ [])) none] }
      else
        processUrlsLoop n envs rest (i + 1)
          { st with
            results := st.results ++ [UrlResult.mk url (some g) (some env.all_scanned.length) 0 false none]
            events := st.events ++
              [ev "running" s!"Completed group {i + 1}/{n}: {g} (0 leads). Moving to next..."] }

/-- The driver's observable outcome. -/
structure RunOutput where
  events : List Event
  success : Bool
  error : Option String
  results : List UrlResult
  total_matches_records : List LeadRec
  total_scanned : Nat
  group_names : List String
  browserLaunched : Bool
  browserClosed : Bool
  processedUrls : Nat
  combinedCsvWritten : Bool
deriving Repr

/-- `scrape_facebook_group(urls, industry, status_callback, job_id)`:
missing cookies are rejected before the browser launches (lines 316-323);
otherwise the browser is launched, the URL loop runs, a login detection
closes the browser and returns a failure (lines 413-421), and a completed
loop closes the browser, writes the combined CSV when there are any
accumulated leads (lines 558-579), emits the completed event and returns
success (lines 582-599). -/
def scrape_facebook_group (cookies : List Cookie) (urls : List String)
    (envs : Nat → UrlEnv) : RunOutput :=
  if cookies = [] then
    { events := [ev "error" "No Facebook cookies configured. Please add cookies in settings."],
      success := false, error := some "No cookies configured",
      results := [], total_matches_records := [], total_scanned := 0,
      group_names := [], browserLaunched := false, browserClosed := false,
      processedUrls := 0, combinedCsvWritten := false }
  else
    let stRes := processUrlsLoop urls.length envs urls 0 ⟨[], [], [], 0, [], 0⟩
    let st := stRes.1
    if stRes.2 then
      { events := st.events, success := false,
        error := some "Login required - cookies expired",
        results := st.results, total_matches_records := st.all_matches,
        total_scanned := st.total_scanned, group_names := st.group_names,
        browserLaunched := true, browserClosed := true,
        processedUrls := st.processed, combinedCsvWritten := false }
    else
      { events := st.events ++
          [ev "completed" s!"Completed! Found {st.all_matches.length} leads from {st.group_names.length} groups."],
        success := true, error := none,
        results := st.results, total_matches_records := st.all_matches,
        total_scanned := st.total_scanned, group_names := st.group_names,
        browserLaunched := true, browserClosed := true,
        processedUrls := st.processed,
        combinedCsvWritten := decide (st.all_matches ≠ [] ∧ st.group_names ≠ []) }

/-! ### C4: validation before the pipeline starts -/

/-- A concrete stored cookie. -/
def c4Cookie : Cookie := ⟨"c_user", "123"⟩

/-- A benign URL environment (never consulted on an empty target list). -/
def trivialUrlEnv : UrlEnv :=
  { navOk := true, navErrMsg := "", loginPage := false, title := none,
    all_scanned := [], matches' := [], s2 := ⟨fun _ => .fail, fun _ => 0⟩ }

/-- Counterexample for **C4** as stated: with cookies configured and an
empty target-URL list, the job is NOT rejected — the browser is launched,
no error event is emitted, the run ends with a completed event and a
success result. -/
theorem empty_target_list_counterexample :
    (scrape_facebook_group [c4Cookie] [] (fun _ => trivialUrlEnv)).success = true ∧
    (scrape_facebook_group [c4Cookie] [] (fun _ => trivialUrlEnv)).browserLaunched = true ∧
    (scrape_facebook_group [c4Cookie] [] (fun _ => trivialUrlEnv)).events.countP
      (fun e => e.status == "error") = 0 ∧
    (scrape_facebook_group [c4Cookie] [] (fun _ => trivialUrlEnv)).events
      = [ev "completed" "Completed! Found 0 leads from 0 groups."] :=
  ⟨rfl, rfl, rfl, rfl⟩

/-- **C4 (amended).** Missing credentials (no stored cookies) are rejected
before the pipeline starts: a single error event is emitted and a failure
result returned, without launching the browser or processing any target.
An empty target-URL list is NOT rejected: the browser is launched and
closed again, no target is processed and no error event is emitted, and
the job returns success with a completed event. -/
theorem validation_behavior :
    (∀ (urls : List String) (envs : Nat → UrlEnv),
      (scrape_facebook_group [] urls envs).success = false ∧
      (scrape_facebook_group [] urls envs).error = some "No cookies configured" ∧
      (scrape_facebook_group [] urls envs).browserLaunched = false ∧
      (scrape_facebook_group [] urls envs).processedUrls = 0 ∧
      (scrape_facebook_group [] urls envs).events
        = [ev "error" "No Facebook cookies configured. Please add cookies in settings."]) ∧
    (∀ (cookies : List Cookie) (envs : Nat → UrlEnv), cookies ≠ [] →
      (scrape_facebook_group cookies [] envs).success = true ∧
      (scrape_facebook_group cookies [] envs).browserLaunched = true ∧
      (scrape_facebook_group cookies [] envs).browserClosed = true ∧
      (scrape_facebook_group cookies [] envs).processedUrls = 0 ∧
      (scrape_facebook_group cookies [] envs).events.countP
        (fun e => e.status == "error") = 0) := by
  constructor
  · intro urls envs
    refine ⟨rfl, rfl, rfl, rfl, rfl⟩
  · intro cookies envs hc
    simp only [scrape_facebook_group, if_neg hc, processUrlsLoop]
    refine ⟨rfl, rfl, rfl, rfl, ?_⟩
    simp [ev]

/-- Witness for the amended C4, at concrete inputs for both halves. -/
theorem validation_behavior_witness :
    (([c4Cookie] : List Cookie) ≠ []) ∧
    (scrape_facebook_group [c4Cookie] [] (fun _ => trivialUrlEnv)).success = true ∧
    (scrape_facebook_group [] [] (fun _ => trivialUrlEnv)).success = false :=
  ⟨by simp,
   (validation_behavior.2 [c4Cookie] (fun _ => trivialUrlEnv) (by simp)).1,
   (validation_behavior.1 [] (fun _ => trivialUrlEnv)).1⟩

/-! ### C7: login detection is fatal -/

/-- The leads accumulated from the URLs processed before index `k`. -/
def leadsBefore (envs : Nat → UrlEnv) (i k : Nat) : List LeadRec :=
  ((List.range k).map
    (fun j => stage2_deep_scrape (envs (i + j)).s2 (envs (i + j)).matches')).flatten

lemma processUrlsLoop_login (n : Nat) (envs : Nat → UrlEnv) :
    ∀ (k : Nat) (urls : List String) (i : Nat) (st : DriverState),
      k < urls.length →
      (∀ j, j < k → (envs (i + j)).navOk = true ∧ (envs (i + j)).loginPage = false) →
      (envs (i + k)).navOk = true → (envs (i + k)).loginPage = true →
      (processUrlsLoop n envs urls i st).2 = true ∧
      (processUrlsLoop n envs urls i st).1.processed = st.processed + k + 1 ∧
      (processUrlsLoop n envs urls i st).1.all_matches
        = st.all_matches ++ leadsBefore envs i k ∧
      (processUrlsLoop n envs urls i st).1.events.countP (fun e => e.status == "error")
        = st.events.countP (fun e => e.status == "error") + 1 ∧
      (processUrlsLoop n envs urls i st).1.events.getLast?
        = some (ev "error" "Facebook login required. Please update your cookies.")
  | 0, [], i, st, hk, _, _, _ => absurd hk (by simp)
  | 0, url :: rest, i, st, _, _, hnav, hlogin => by
    rw [Nat.add_zero] at hnav hlogin
    have hnav' : ¬ ((envs i).navOk = false) := by simp [hnav]
    simp only [processUrlsLoop]
    rw [if_neg hnav', if_pos hlogin]
    refine ⟨rfl, rfl, by simp [leadsBefore], ?_, by simp⟩
    simp [List.countP_append, ev]
  | k + 1, [], i, st, hk, _, _, _ => absurd hk (by simp)
  | k + 1, url :: rest, i, st, hk, hclean, hnav, hlogin => by
    obtain ⟨hnav0, hlogin0⟩ := by
      have := hclean 0 (Nat.succ_pos k)
      rwa [Nat.add_zero] at this
    have hnav' : ¬ ((envs i).navOk = false) := by simp [hnav0]
    have hlogin' : ¬ ((envs i).loginPage = true) := by simp [hlogin0]
    have hshift : ∀ j, j < k → (envs (i + 1 + j)).navOk = true ∧
        (envs (i + 1 + j)).loginPage = false := by
      intro j hj
      have := hclean (j + 1) (by omega)
      rwa [show i + (j + 1) = i + 1 + j by omega] at this
    have hnavk : (envs (i + 1 + k)).navOk = true := by
      rwa [show i + 1 + k = i + (k + 1) by omega]
    have hlogink : (envs (i + 1 + k)).loginPage = true := by
      rwa [show i + 1 + k = i + (k + 1) by omega]
    have hlead : ∀ st₁ : List LeadRec,
        st₁ ++ stage2_deep_scrape (envs i).s2 (envs i).matches'
            ++ leadsBefore envs (i + 1) k
          = st₁ ++ leadsBefore envs i (k + 1) := by
      intro st₁
      rw [List.append_assoc]
      congr 1
      unfold leadsBefore
      rw [List.range_succ_eq_map, List.map_cons, List.flatten_cons, Nat.add_zero]
      congr 1
      rw [List.map_map]
      have hfun : ((fun j => stage2_deep_scrape (envs (i + j)).s2 (envs (i + j)).matches')
            ∘ Nat.succ)
          = (fun j => stage2_deep_scrape (envs (i + 1 + j)).s2 (envs (i + 1 + j)).matches') := by
        funext j
        simp only [Function.comp]
        rw [show i + (j + 1) = i + 1 + j by omega]
      rw [hfun]
    simp only [processUrlsLoop]
    rw [if_neg hnav', if_neg hlogin']
    by_cases hm : (envs i).matches' ≠ []
    · rw [if_pos hm]
      obtain ⟨ha, hp, hmm, hcnt, hlast⟩ :=
        processUrlsLoop_login n envs k rest (i + 1) _ (by simpa using hk) hshift hnavk hlogink
      refine ⟨ha, ?_, ?_, ?_, hlast⟩
      · rw [hp]
        show st.processed + 1 + k + 1 = st.processed + (k + 1) + 1
        omega
      · rw [hmm]
        exact hlead st.all_matches
      · rw [hcnt]
        simp [List.countP_append, ev]
    · rw [if_neg hm]
      push_neg at hm
      obtain ⟨ha, hp, hmm, hcnt, hlast⟩ :=
        processUrlsLoop_login n envs k rest (i + 1) _ (by simpa using hk) hshift hnavk hlogink
      refine ⟨ha, ?_, ?_, ?_, hlast⟩
      · rw [hp]
        show st.processed + 1 + k + 1 = st.processed + (k + 1) + 1
        omega
      · rw [hmm]
        have hscr : stage2_deep_scrape (envs i).s2 (envs i).matches' = [] := by
          rw [hm]; rfl
        have hl := hlead st.all_matches
        rw [hscr] at hl
        simpa using hl
      · rw [hcnt]
        simp [List.countP_append, ev]

/-- **C7.** When the first login/checkpoint detection happens at target
index `k` (all earlier targets navigated cleanly), the job is fatally
terminated: exactly one error event is emitted (the last event, whose
message asks for the cookies to be updated), the browser is closed, a
failure result is returned, only the first `k + 1` targets were entered,
and the accumulated leads are exactly those scraped from the targets
before `k` — no candidate is processed afterwards. -/
theorem login_detection_fatal (cookies : List Cookie) (urls : List String)
    (envs : Nat → UrlEnv) (k : Nat)
    (hc : cookies ≠ [])
    (hk : k < urls.length)
    (hclean : ∀ j, j < k → (envs j).navOk = true ∧ (envs j).loginPage = false)
    (hnav : (envs k).navOk = true) (hlogin : (envs k).loginPage = true) :
    (scrape_facebook_group cookies urls envs).success = false ∧
    (scrape_facebook_group cookies urls envs).error
      = some "Login required - cookies expired" ∧
    (scrape_facebook_group cookies urls envs).browserClosed = true ∧
    (scrape_facebook_group cookies urls envs).events.countP
      (fun e => e.status == "error") = 1 ∧
    (scrape_facebook_group cookies urls envs).events.getLast?
      = some (ev "error" "Facebook login required. Please update your cookies.") ∧
    (scrape_facebook_group cookies urls envs).processedUrls = k + 1 ∧
    (scrape_facebook_group cookies urls envs).total_matches_records
      = leadsBefore envs 0 k := by
  have hclean' : ∀ j, j < k → (envs (0 + j)).navOk = true ∧
      (envs (0 + j)).loginPage = false := by
    intro j hj
    simpa using hclean j hj
  have hnav' : (envs (0 + k)).navOk = true := by simpa using hnav
  have hlogin' : (envs (0 + k)).loginPage = true := by simpa using hlogin
  obtain ⟨ha, hp, hmm, hcnt, hlast⟩ :=
    processUrlsLoop_login urls.length envs k urls 0 ⟨[], [], [], 0, [], 0⟩
      hk hclean' hnav' hlogin'
  unfold scrape_facebook_group
  rw [if_neg hc, if_pos ha]
  refine ⟨rfl, rfl, rfl, ?_, hlast, ?_, ?_⟩
  · simpa using hcnt
  · simpa using hp
  · simpa using hmm

/-- Concrete environment for the C7 witness: the very first target shows
a login page. -/
def c7Env : Nat → UrlEnv := fun _ =>
  { navOk := true, navErrMsg := "", loginPage := true, title := none,
    all_scanned := [], matches' := [], s2 := ⟨fun _ => .fail, fun _ => 0⟩ }

/-- Witness for C7: one target, login detected there. -/
theorem login_detection_fatal_witness :
    (([c4Cookie] : List Cookie) ≠ []) ∧ 0 < (["https://facebook.com/groups/g1"] : List String).length ∧
    (scrape_facebook_group [c4Cookie] ["https://facebook.com/groups/g1"] c7Env).success = false ∧
    (scrape_facebook_group [c4Cookie] ["https://facebook.com/groups/g1"] c7Env).events.countP
      (fun e => e.status == "error") = 1 :=
  ⟨by simp, by simp,
   (login_detection_fatal [c4Cookie] ["https://facebook.com/groups/g1"] c7Env 0
      (by simp) (by simp) (fun j hj => absurd hj (by omega)) rfl rfl).1,
   (login_detection_fatal [c4Cookie] ["https://facebook.com/groups/g1"] c7Env 0
      (by simp) (by simp) (fun j hj => absurd hj (by omega)) rfl rfl).2.2.2.1⟩

end FbScraper
